/-
Verification of the timesheet engine: a shallow embedding of the
business-logic core of the repository (time-entry lifecycle, hours
computation, scoped queries, approval batching, payroll aggregation,
admin invite endpoint) with theorems about its behaviour.

Sources embedded:
  - src/app/timesheet/page.tsx      (hoursByDay, saveDraft, submitWeek)
  - src/app/approvals/page.tsx      (week load scoping, approveGroup, rejectGroup)
  - src/app/reports/payroll/page.tsx  (two variants of the report load)
  - src/app/profiles/page.tsx       (saveRow)
  - src/app/api/admin/invite/route.ts (POST handler)

Modelling conventions: ISO dates and ids are `String` (the code compares
ISO date strings, which agrees with chronological order); decimal
quantities (hours, rates, pay) are `ℚ`; nullable columns are `Option`;
the remote store is a `List` of rows, and a conditional UPDATE is a
`List.map` that rewrites exactly the rows matching the UPDATE's WHERE
clause.  Result ordering (`.order(...)`) is not modelled: no claim
depends on row order.  The pure string formatting `normalizeHHMM`
(zero-padding of "HH:MM") is not modelled; payload time fields carry the
raw string, since no claim inspects time values of payloads.
-/
import Mathlib

namespace Timesheet

/-- Roles of a `profiles` row. -/
inductive Role where
  | admin
  | manager
  | contractor
deriving DecidableEq, Repr

/-- Status column of a `time_entries` row. -/
inductive EntryStatus where
  | draft
  | submitted
  | approved
  | rejected
deriving DecidableEq, Repr

/-- A `profiles` row (columns used by the embedded code). -/
structure Profile where
  id : String
  org_id : String
  role : Role
  full_name : Option String
  hourly_rate : Option ℚ
  is_active : Bool
  manager_id : Option String
deriving DecidableEq, Repr

/-- A `time_entries` row (columns used by the embedded code). -/
structure TimeEntry where
  id : String
  org_id : String
  user_id : String
  project_id : String
  entry_date : String
  time_in : Option String
  time_out : Option String
  lunch_hours : ℚ
  mileage : ℚ
  notes : Option String
  status : EntryStatus
  hourly_rate_snapshot : Option ℚ
  approved_by : Option String
  approved_at : Option String
deriving DecidableEq, Repr

/-- Lexicographic `≤` on character lists (by code point). -/
def strLeList : List Char → List Char → Bool
  | [], _ => true
  | _ :: _, [] => false
  | a :: as, b :: bs =>
      a.toNat < b.toNat || (a.toNat == b.toNat && strLeList as bs)

/-- Lexicographic order on ISO date strings, as a Bool. The client code
compares ISO dates with JavaScript `<=` and the store compares the
`date` column; both agree with this on `YYYY-MM-DD` strings. -/
def strLe (a b : String) : Bool := strLeList a.data b.data

/-- Hours computation from src/app/timesheet/page.tsx, hoursByDay:
`start = h1*60+m1`, `end = h2*60+m2`,
`minutes = Math.max(end - start, 0)`,
`hours = Math.max(minutes / 60 - lunch_hours, 0)`.
Times are minutes since midnight. -/
def computeHours (timeIn timeOut : ℤ) (lunchHours : ℚ) : ℚ :=
  max (((max (timeOut - timeIn) 0 : ℤ) : ℚ) / 60 - lunchHours) 0

/-- WHERE clause of the conditional UPDATE issued by `approveGroup` and
`rejectGroup` (src/app/approvals/page.tsx):
`.eq("user_id", g.user_id).gte("entry_date", g.week_start)
 .lte("entry_date", g.week_end).eq("status", "submitted")`. -/
def approveMatch (uid ws we : String) (e : TimeEntry) : Bool :=
  e.user_id == uid && strLe ws e.entry_date && strLe e.entry_date we &&
    e.status == .submitted

/-- Effect of `approveGroup`'s UPDATE on a single row: rows matching the
WHERE clause get `status := approved` (the SET list is exactly
`{ status: "approved" }`); other rows are untouched. -/
def approveOne (uid ws we : String) (e : TimeEntry) : TimeEntry :=
  if approveMatch uid ws we e then { e with status := .approved } else e

/-- `approveGroup` as a transition on the `time_entries` table. -/
def approveWeek (db : List TimeEntry) (uid ws we : String) : List TimeEntry :=
  db.map (approveOne uid ws we)

/-- Effect of `rejectGroup`'s UPDATE on a single row: the SET list is
exactly `{ status: "rejected" }` on the same WHERE clause. -/
def rejectOne (uid ws we : String) (e : TimeEntry) : TimeEntry :=
  if approveMatch uid ws we e then { e with status := .rejected } else e

/-- `rejectGroup` as a transition on the `time_entries` table. -/
def rejectWeek (db : List TimeEntry) (uid ws we : String) : List TimeEntry :=
  db.map (rejectOne uid ws we)

/-- Number of rows an `approveGroup`/`rejectGroup` UPDATE would match. -/
def pendingCount (db : List TimeEntry) (uid ws we : String) : ℕ :=
  (db.filter (approveMatch uid ws we)).length

/-- Manager scope query of the approvals page
(src/app/approvals/page.tsx, week-load effect):
`.eq("org_id", profile.org_id).eq("manager_id", userId).eq("is_active", true)`,
projected to ids. -/
def directReportIds (profiles : List Profile) (orgId mgrId : String) :
    List String :=
  (profiles.filter fun p =>
    p.org_id == orgId && p.manager_id == some mgrId && p.is_active).map (·.id)

/-- Week/status filter of the approvals page entry query:
`.gte("entry_date", ws).lte("entry_date", we).eq("status", "submitted")`. -/
def weekSubmitted (ws we : String) (e : TimeEntry) : Bool :=
  strLe ws e.entry_date && strLe e.entry_date we && e.status == .submitted

/-- The approvals page week-load (src/app/approvals/page.tsx): for a
manager the allowed user ids are the active direct reports, an empty
team short-circuits to no entries, and otherwise
`.in("user_id", allowedUserIds)` is added; for an admin no user filter
is added. -/
def approvalsLoad (db : List TimeEntry) (profiles : List Profile)
    (actor : Profile) (ws we : String) : List TimeEntry :=
  if actor.role == .manager then
    let allowed := directReportIds profiles actor.org_id actor.id
    if allowed.isEmpty then []
    else db.filter fun e => weekSubmitted ws we e && allowed.contains e.user_id
  else db.filter (weekSubmitted ws we)

/-- Contractor-dropdown query of the payroll report
(src/app/reports/payroll/page.tsx, lookups effect): non-manager/admin
actors get an empty list; the base query is
`.eq("org_id", ...).eq("is_active", true).eq("role", "contractor")`,
and a manager (`isManager && !isAdmin`) adds `.eq("manager_id", userId)`. -/
def contractorsFor (profiles : List Profile) (actor : Profile) :
    List Profile :=
  if actor.role == .admin || actor.role == .manager then
    let base := profiles.filter fun p =>
      p.org_id == actor.org_id && p.is_active && p.role == .contractor
    if actor.role == .manager then
      base.filter fun p => p.manager_id == some actor.id
    else base
  else []

/-- Unscoped part of the payroll report query (current variant):
`.eq("org_id", ...).gte/.lte("entry_date", ...).eq("status", status)`
plus the optional `.eq("project_id", projectId)`. -/
def payrollBase (db : List TimeEntry) (orgId startD endD : String)
    (status : EntryStatus) (projectFilter : Option String) :
    List TimeEntry :=
  db.filter fun e =>
    e.org_id == orgId && strLe startD e.entry_date &&
    strLe e.entry_date endD && e.status == status &&
    (match projectFilter with
     | some pid => e.project_id == pid
     | none => true)

/-- The current payroll report `load` (src/app/reports/payroll/page.tsx,
the variant with the explicit scoping block): a manager with an empty
contractor list short-circuits to no rows; a contractor always gets
`.eq("user_id", userId)`; otherwise a contractor filter is applied when
allowed (admin, or manager whose direct-report list contains it — note
that a disallowed filter falls through with no user constraint at all,
as in the source), and a manager with no filter gets
`.in("user_id", contractors.map(c => c.id))`. -/
def payrollLoad (db : List TimeEntry) (profiles : List Profile)
    (actor : Profile) (startD endD : String) (status : EntryStatus)
    (projectFilter contractorFilter : Option String) : List TimeEntry :=
  let contractors := contractorsFor profiles actor
  if actor.role == .manager && contractors.isEmpty then []
  else
    let base := payrollBase db actor.org_id startD endD status projectFilter
    if actor.role == .contractor then
      base.filter fun e => e.user_id == actor.id
    else
      match contractorFilter with
      | some cid =>
          if actor.role == .admin || contractors.any (fun c => c.id == cid)
          then base.filter fun e => e.user_id == cid
          else base
      | none =>
          if actor.role == .manager then
            base.filter fun e => contractors.any fun c => c.id == e.user_id
          else base

/-- The legacy payroll report `load`
(src/src/app/reports/payroll/page.tsx): no org filter, and the only
user-related clause is `if (!isContractor && contractorId)
q = q.eq("user_id", contractorId)` — for a contractor no user
constraint is placed on the issued query at all. -/
def payrollLoadLegacy (db : List TimeEntry) (actor : Profile)
    (startD endD : String) (status : EntryStatus)
    (projectFilter contractorFilter : Option String) : List TimeEntry :=
  let base := db.filter fun e =>
    strLe startD e.entry_date && strLe e.entry_date endD &&
    e.status == status &&
    (match projectFilter with
     | some pid => e.project_id == pid
     | none => true)
  if !(actor.role == .contractor) then
    match contractorFilter with
    | some cid => base.filter fun e => e.user_id == cid
    | none => base
  else base

/-- Modelled from the spec: the storage layer's authorization for the
approve/reject transition is not under src/ (it is the database
row-level policy the README snapshot calls `te_manager_approve`:
"admin approves all; manager approves direct reports"). Per the spec,
the actor must be `admin`, or `manager` with the target user in their
direct-report set. -/
def canApproveTarget (profiles : List Profile) (actor : Profile)
    (targetUserId : String) : Bool :=
  actor.role == .admin ||
    (actor.role == .manager &&
      profiles.any fun p =>
        p.id == targetUserId && p.manager_id == some actor.id)

/-- Modelled from the spec: `approveWeek` guarded by the storage-layer
authorization check; an unauthorized actor gets an authorization error
and the table is returned unchanged (zero rows change). -/
def approveWeekAuth (profiles : List Profile) (actor : Profile)
    (db : List TimeEntry) (targetUserId ws we : String) :
    Option String × List TimeEntry :=
  if canApproveTarget profiles actor targetUserId then
    (none, approveWeek db targetUserId ws we)
  else (some "authorization", db)

/-- Modelled from the spec: `rejectWeek` guarded in the same way. -/
def rejectWeekAuth (profiles : List Profile) (actor : Profile)
    (db : List TimeEntry) (targetUserId ws we : String) :
    Option String × List TimeEntry :=
  if canApproveTarget profiles actor targetUserId then
    (none, rejectWeek db targetUserId ws we)
  else (some "authorization", db)

/-- Fixture: a manager profile (not anyone's direct report). -/
def mgrM1 : Profile :=
  ⟨"m1", "org1", .manager, some "Mana Ger", none, true, none⟩

/-- Fixture: an active contractor reporting to `mgrM1`. -/
def conC1 : Profile :=
  ⟨"c1", "org1", .contractor, some "Con One", some 50, true, some "m1"⟩

/-- Fixture: a submitted entry of contractor `c1` in the week of
2025-01-05. -/
def entryC1 : TimeEntry :=
  ⟨"e1", "org1", "c1", "p1", "2025-01-06", some "09:00:00",
    some "17:00:00", 0, 0, none, .submitted, some 50, none, none⟩

/-- Fixture: a submitted entry of manager `m1` in the same week. -/
def entryM1 : TimeEntry :=
  ⟨"e2", "org1", "m1", "p1", "2025-01-07", some "09:00:00",
    some "17:00:00", 0, 0, none, .submitted, some 0, none, none⟩

/-- Fixture: an approved entry of a different contractor `c2`. -/
def entryOther : TimeEntry :=
  ⟨"e3", "org1", "c2", "p1", "2025-01-06", none, none, 0, 0, none,
    .approved, some 40, none, none⟩

/-- A timesheet grid row (`DraftRow` in src/app/timesheet/page.tsx):
`id` is set when the row was loaded from the store, times are "HH:MM"
strings ("" when blank). -/
structure DraftRow where
  id : Option String
  entry_date : String
  project_id : String
  time_in : String
  time_out : String
  lunch_hours : ℚ
  mileage : ℚ
  notes : String
  status : Option EntryStatus
deriving DecidableEq, Repr

/-- The column values `saveDraft` sends in its UPDATE/INSERT payload.
Note the payload has no `hourly_rate_snapshot`, no `approved_by` and no
`approved_at` field.  (The "HH:MM" zero-padding `normalizeHHMM` is pure
formatting and is not modelled; time fields carry the raw string.) -/
structure DraftPayload where
  org_id : String
  user_id : String
  entry_date : String
  project_id : String
  time_in : Option String
  time_out : Option String
  lunch_hours : ℚ
  mileage : ℚ
  notes : String
  status : EntryStatus
deriving DecidableEq, Repr

/-- Outcome of `saveDraft`'s per-row processing. `skippedEmpty` and
`skippedLocked` are the `{ ok: true, skipped: true }` returns;
`errorProjectRequired` is the `{ ok: false, error }` return. -/
inductive SaveAction where
  | skippedEmpty
  | errorProjectRequired (date : String)
  | skippedLocked
  | updateEntry (id : String) (p : DraftPayload)
  | insertEntry (p : DraftPayload)
deriving DecidableEq, Repr

/-- Per-row logic of `saveDraft` (src/app/timesheet/page.tsx): rows with
no input are skipped, a row with input but no project errors, a
`submitted`/`approved` row is skipped with `ok: true`, and otherwise the
payload is built (`status: rejected ↦ draft`, otherwise the row status
defaulted to draft) and an UPDATE (when the row has an id) or INSERT is
issued. -/
def saveRowAction (orgId userId : String) (r : DraftRow) : SaveAction :=
  let hasAnyInput := r.project_id != "" || r.time_in != "" ||
    r.time_out != "" || r.lunch_hours > 0 || r.mileage > 0 || r.notes != ""
  if !hasAnyInput then .skippedEmpty
  else if r.project_id == "" then .errorProjectRequired r.entry_date
  else if r.status == some .submitted || r.status == some .approved then
    .skippedLocked
  else
    let payload : DraftPayload :=
      { org_id := orgId, user_id := userId, entry_date := r.entry_date,
        project_id := r.project_id,
        time_in := if r.time_in == "" then none else some r.time_in,
        time_out := if r.time_out == "" then none else some r.time_out,
        lunch_hours := r.lunch_hours, mileage := r.mileage,
        notes := r.notes,
        status := if r.status == some .rejected then .draft
          else r.status.getD .draft }
    match r.id with
    | some i => .updateEntry i payload
    | none => .insertEntry payload

/-- The error string of a per-row result (`null` for ok results). -/
def saveResultError : SaveAction → Option String
  | .errorProjectRequired d => some ("Project required for " ++ d)
  | _ => none

/-- Whether a per-row result writes to the store. -/
def actionWrites : SaveAction → Bool
  | .updateEntry _ _ => true
  | .insertEntry _ => true
  | _ => false

/-- The payload a per-row result persists, if any. -/
def actionPayload : SaveAction → Option DraftPayload
  | .updateEntry _ p => some p
  | .insertEntry p => some p
  | _ => none

/-- The message `saveDraft` surfaces after processing the current week's
rows: the joined per-row errors, or "Saved ✅" when there are none. -/
def saveDraftMsg (ws we orgId userId : String) (rows : List DraftRow) :
    String :=
  let results := (rows.filter fun r =>
    strLe ws r.entry_date && strLe r.entry_date we).map
      (saveRowAction orgId userId)
  let errors := results.filterMap saveResultError
  if errors.isEmpty then "Saved ✅" else String.intercalate "\n" errors

/-- The UPDATE calls `saveDraft` issues for the current week's rows. -/
def draftUpdates (ws we orgId userId : String) (rows : List DraftRow) :
    List (String × DraftPayload) :=
  (rows.filter fun r =>
    strLe ws r.entry_date && strLe r.entry_date we).filterMap fun r =>
      match saveRowAction orgId userId r with
      | .updateEntry i p => some (i, p)
      | _ => none

/-- Effect of `saveDraft`'s UPDATE on one row: exactly the payload
columns are set; `id`, `hourly_rate_snapshot`, `approved_by` and
`approved_at` are not in the payload and keep their stored values. -/
def applyPayload (p : DraftPayload) (e : TimeEntry) : TimeEntry :=
  { e with
    org_id := p.org_id
    user_id := p.user_id
    entry_date := p.entry_date
    project_id := p.project_id
    time_in := p.time_in
    time_out := p.time_out
    lunch_hours := p.lunch_hours
    mileage := p.mileage
    notes := some p.notes
    status := p.status }

/-- `saveDraft`'s `.update(payload).eq("id", r.id)` on the table. -/
def applyDraftUpdate (db : List TimeEntry) (i : String)
    (p : DraftPayload) : List TimeEntry :=
  db.map fun e => if e.id == i then applyPayload p e else e

/-- The patch `ProfilesPage.saveRow` sends:
`{ full_name, role, manager_id, hourly_rate, is_active }`
(src/app/profiles/page.tsx, the Save button's onClick). -/
structure ProfilePatch where
  full_name : Option String
  role : Role
  manager_id : Option String
  hourly_rate : ℚ
  is_active : Bool
deriving DecidableEq, Repr

/-- Effect of `saveRow`'s UPDATE on one `profiles` row. -/
def profilePatchApply (patch : ProfilePatch) (p : Profile) : Profile :=
  { p with
    full_name := patch.full_name
    role := patch.role
    manager_id := patch.manager_id
    hourly_rate := some patch.hourly_rate
    is_active := patch.is_active }

/-- The store: the `profiles` and `time_entries` tables. -/
structure OrgState where
  profiles : List Profile
  entries : List TimeEntry
deriving DecidableEq, Repr

/-- `ProfilesPage.saveRow`:
`supabase.from("profiles").update(patch).eq("id", id)` — a write to the
`profiles` table only. -/
def saveRow (s : OrgState) (i : String) (patch : ProfilePatch) :
    OrgState :=
  { s with profiles := s.profiles.map fun p =>
      if p.id == i then profilePatchApply patch p else p }

/-- Pay of an entry as the payroll report computes it:
`hours_worked * Number(hourly_rate_snapshot ?? 0)`. -/
def entryPay (hours : ℚ) (e : TimeEntry) : ℚ :=
  hours * e.hourly_rate_snapshot.getD 0

/-- WHERE clause of `submitWeek`'s UPDATE
(src/app/timesheet/page.tsx): `.eq("user_id", userId)
.gte("entry_date", ws).lte("entry_date", we)
.in("status", ["draft", "rejected"])`. -/
def submitMatch (uid ws we : String) (e : TimeEntry) : Bool :=
  e.user_id == uid && strLe ws e.entry_date && strLe e.entry_date we &&
    (e.status == .draft || e.status == .rejected)

/-- Effect of `submitWeek`'s UPDATE on one row: the SET list is exactly
`{ status: "submitted" }`. -/
def submitOne (uid ws we : String) (e : TimeEntry) : TimeEntry :=
  if submitMatch uid ws we e then { e with status := .submitted } else e

/-- `submitWeek` as a transition on the `time_entries` table. -/
def submitWeek (db : List TimeEntry) (uid ws we : String) :
    List TimeEntry :=
  db.map (submitOne uid ws we)

/-- Body of a POST to /api/admin/invite after the handler's coercions
(src/app/api/admin/invite/route.ts): `email` is modelled
post-normalization (`String(body.email || "").trim().toLowerCase()` is
pure string formatting), `full_name` post-trim, `hourly_rate` is
`Number(body.hourly_rate ?? 0)` with `none` standing for NaN, `role` is
`String(body.role || "contractor")`, and `project_ids` the coerced
string list (per-element trim not modelled; empties are filtered in the
handler as in the source). -/
structure InviteBody where
  email : String
  full_name : String
  hourly_rate : Option ℚ
  role : String
  manager_id : Option String
  project_ids : List String
deriving DecidableEq, Repr

/-- The profile row the invite endpoint upserts. -/
structure ProfilePayload where
  id : String
  org_id : String
  role : String
  full_name : Option String
  hourly_rate : ℚ
  is_active : Bool
  manager_id : Option String
deriving DecidableEq, Repr

/-- A write effect of the invite endpoint, in issue order. -/
inductive InviteEffect where
  | inviteEmail (email : String)
  | upsertProfile (p : ProfilePayload)
  | upsertMembers (rows : List (String × String))
deriving DecidableEq, Repr

/-- HTTP result of the invite endpoint plus the write effects it issued
before returning. -/
structure InviteResult where
  status : ℕ
  ok : Bool
  error : Option String
  effects : List InviteEffect
deriving DecidableEq, Repr

/-- JavaScript truthiness on an optional string:
`body.manager_id ? String(body.manager_id) : null`. -/
def presentOpt : Option String → Option String
  | some m => if m == "" then none else some m
  | none => none

/-- The POST /api/admin/invite handler
(src/app/api/admin/invite/route.ts) as a function of the request and of
the resolved caller (`caller = none` models a token that does not
resolve to a profile), the invited user's id as returned by the
identity provider, and the org's project ids.  Checks are in source
order: token, JSON, email, role (`manager`/`contractor` only), rate,
caller admin check, invite, profile upsert (`manager_id` only kept for
role `contractor`; `hourly_rate` allowed for any role), membership
upsert with org validation. -/
def invitePost (tokenPresent : Bool) (body : Option InviteBody)
    (caller : Option Profile) (invitedUserId : Option String)
    (orgProjects : List String) : InviteResult :=
  if !tokenPresent then ⟨401, false, some "Missing auth token", []⟩
  else
    match body with
    | none => ⟨400, false, some "Invalid JSON", []⟩
    | some b =>
      if b.email == "" then ⟨400, false, some "Email required", []⟩
      else if !(b.role == "manager" || b.role == "contractor") then
        ⟨400, false, some "Role must be manager or contractor", []⟩
      else
        match b.hourly_rate with
        | none => ⟨400, false, some "Hourly rate invalid", []⟩
        | some rate =>
          if rate < 0 then ⟨400, false, some "Hourly rate invalid", []⟩
          else
            match caller with
            | none => ⟨401, false, some "Unauthorized", []⟩
            | some cp =>
              if cp.org_id == "" || !(cp.role == .admin) then
                ⟨403, false, some "Admin only", []⟩
              else
                match invitedUserId with
                | none =>
                    ⟨400, false, some "Invite created but missing user id",
                      [.inviteEmail b.email]⟩
                | some uid =>
                  let payload : ProfilePayload :=
                    { id := uid, org_id := cp.org_id, role := b.role,
                      full_name := if b.full_name == "" then none
                        else some b.full_name,
                      hourly_rate := rate, is_active := true,
                      manager_id := if b.role == "contractor" then
                        presentOpt b.manager_id else none }
                  let pids := b.project_ids.filter (· != "")
                  if pids.isEmpty then
                    ⟨200, true, none,
                      [.inviteEmail b.email, .upsertProfile payload]⟩
                  else if pids.all orgProjects.contains then
                    ⟨200, true, none,
                      [.inviteEmail b.email, .upsertProfile payload,
                        .upsertMembers (pids.map fun pid => (pid, uid))]⟩
                  else
                    ⟨400, false, some "Invalid projects",
                      [.inviteEmail b.email, .upsertProfile payload]⟩

/-- Fixture: a draft entry of contractor `c1`, with a project. -/
def entryDraft : TimeEntry :=
  ⟨"e4", "org1", "c1", "p1", "2025-01-08", some "09:00:00",
    some "12:00:00", 0, 0, none, .draft, some 50, none, none⟩

/-- Fixture: a loaded grid row whose entry is already submitted. -/
def rowLocked : DraftRow :=
  ⟨some "e1", "2025-01-06", "p1", "09:00", "17:00", 0, 0, "",
    some .submitted⟩

/-- Fixture: a fresh grid row with a project, not yet persisted. -/
def rowDraft : DraftRow :=
  ⟨none, "2025-01-08", "p1", "09:00", "12:00", 0, 0, "worked",
    some .draft⟩

/-- Fixture: an admin profile. -/
def adminA1 : Profile :=
  ⟨"a1", "org1", .admin, some "Ada Min", none, true, none⟩

/-- Fixture: an invite body requesting the admin role. -/
def bodyAdminRole : InviteBody :=
  ⟨"x@y.com", "Bob", some 10, "admin", some "m1", []⟩

/-- Fixture: an invite body for a manager, with a manager_id supplied. -/
def bodyManager : InviteBody :=
  ⟨"m2@y.com", "Max", some 35, "manager", some "m1", []⟩

/-- Fixture: an invite body for a contractor. -/
def bodyContractor : InviteBody :=
  ⟨"c3@y.com", "Cleo", some 42, "contractor", some "m1", []⟩

end Timesheet

namespace Timesheet

/-- C2: for all clock times (minutes since midnight) and lunchHours ≥ 0,
the hours computation is `max(max(timeOut-timeIn,0)/60 - lunchHours, 0)`:
always nonnegative, exactly 0 when `timeOut ≤ timeIn`, 0 (not negative)
when lunch exceeds the worked span, and 7.5 for 09:00→17:00 with 0.5h
lunch. -/
theorem computeHours_spec (timeIn timeOut : ℤ) (lunchHours : ℚ)
    (hl : 0 ≤ lunchHours) :
    0 ≤ computeHours timeIn timeOut lunchHours ∧
    (timeOut ≤ timeIn → computeHours timeIn timeOut lunchHours = 0) ∧
    (((max (timeOut - timeIn) 0 : ℤ) : ℚ) / 60 ≤ lunchHours →
      computeHours timeIn timeOut lunchHours = 0) ∧
    computeHours 540 1020 (1/2) = 15/2 := by
  refine ⟨le_max_right _ _, ?_, ?_, ?_⟩
  · intro h
    have hz : max (timeOut - timeIn) 0 = (0 : ℤ) := by omega
    unfold computeHours
    rw [hz]
    simp only [Int.cast_zero, zero_div, zero_sub]
    exact max_eq_right (by linarith)
  · intro h
    unfold computeHours
    exact max_eq_right (by linarith)
  · unfold computeHours
    norm_num

/-- Witness for `computeHours_spec` at a concrete input. -/
theorem computeHours_spec_witness :
    0 ≤ computeHours 1020 540 (1/4 : ℚ) ∧
    computeHours 1020 540 (1/4 : ℚ) = 0 := by
  have h := computeHours_spec 1020 540 (1/4 : ℚ) (by norm_num)
  exact ⟨h.1, h.2.1 (by norm_num)⟩

/-- A row produced by `approveGroup`'s UPDATE never matches the same
UPDATE's WHERE clause again: its status is `approved`, not `submitted`. -/
theorem approveMatch_approveOne (u ws we : String) (e : TimeEntry) :
    approveMatch u ws we (approveOne u ws we e) = false := by
  by_cases h : approveMatch u ws we e = true
  · have he : approveOne u ws we e = { e with status := .approved } := by
      simp [approveOne, h]
    rw [he]
    simp [approveMatch]
  · have he : approveOne u ws we e = e := by
      simp [approveOne, h]
    simp only [Bool.not_eq_true] at h
    rw [he]
    exact h

/-- C3: `approveWeek` is idempotent; on a table where the group was
already approved the conditional UPDATE
(`... WHERE status = 'submitted'`) matches zero rows and changes
nothing (a normal, non-error outcome of the modelled total update). -/
theorem approveWeek_idempotent (db : List TimeEntry) (u ws we : String) :
    approveWeek (approveWeek db u ws we) u ws we = approveWeek db u ws we ∧
    pendingCount (approveWeek db u ws we) u ws we = 0 := by
  constructor
  · unfold approveWeek
    rw [List.map_map]
    apply List.map_congr_left
    intro e _
    show approveOne u ws we (approveOne u ws we e) = approveOne u ws we e
    conv_lhs => rw [approveOne]
    rw [approveMatch_approveOne]
    simp
  · unfold pendingCount approveWeek
    rw [List.filter_map]
    have hnil : List.filter (approveMatch u ws we ∘ approveOne u ws we) db
        = [] := by
      rw [List.filter_eq_nil_iff]
      intro a _
      simp [Function.comp, approveMatch_approveOne]
    rw [hnil]
    rfl

/-- C5 counterexample: with manager `m1` (direct report `c1`), the
approvals week-load returns only `c1`'s entry; the manager's own
submitted entry `entryM1`, though in scope per the claim ("plus the
manager's own entries"), is not returned. -/
theorem approvalsLoad_manager_own_excluded_cex :
    mgrM1.role = .manager ∧
    entryM1.user_id = mgrM1.id ∧
    weekSubmitted "2025-01-05" "2025-01-11" entryM1 = true ∧
    entryM1 ∈ [entryC1, entryM1] ∧
    approvalsLoad [entryC1, entryM1] [mgrM1, conC1] mgrM1
      "2025-01-05" "2025-01-11" = [entryC1] ∧
    entryM1 ∉ approvalsLoad [entryC1, entryM1] [mgrM1, conC1] mgrM1
      "2025-01-05" "2025-01-11" := by
  decide

/-- C5 (amended): for a manager, the approvals week-load returns exactly
the submitted in-week entries of active direct reports (so never an
entry of any other user, and not the manager's own entries), and the
payroll load with no contractor filter returns only entries of the
manager's active direct-report contractors. -/
theorem approvalsLoad_manager_team_only (db : List TimeEntry)
    (profiles : List Profile) (actor : Profile) (ws we sd ed : String)
    (st : EntryStatus) (pf : Option String)
    (hm : actor.role = .manager) :
    (∀ e, e ∈ approvalsLoad db profiles actor ws we ↔
      e ∈ db ∧ weekSubmitted ws we e = true ∧
        e.user_id ∈ directReportIds profiles actor.org_id actor.id) ∧
    (∀ e ∈ approvalsLoad db profiles actor ws we,
      ∃ p, p ∈ profiles ∧ p.id = e.user_id ∧ p.org_id = actor.org_id ∧
        p.manager_id = some actor.id ∧ p.is_active = true) ∧
    (∀ e ∈ payrollLoad db profiles actor sd ed st pf none,
      ∃ p, p ∈ profiles ∧ p.id = e.user_id ∧ p.org_id = actor.org_id ∧
        p.manager_id = some actor.id ∧ p.role = .contractor ∧
        p.is_active = true) := by
  have hb : (actor.role == Role.manager) = true := by simp [hm]
  have hmem : ∀ u, u ∈ directReportIds profiles actor.org_id actor.id ↔
      ∃ p, p ∈ profiles ∧ p.id = u ∧ p.org_id = actor.org_id ∧
        p.manager_id = some actor.id ∧ p.is_active = true := by
    intro u
    unfold directReportIds
    simp only [List.mem_map, List.mem_filter, Bool.and_eq_true,
      beq_iff_eq]
    constructor
    · rintro ⟨p, ⟨hp, ⟨⟨ho, hmg⟩, ha⟩⟩, hid⟩
      exact ⟨p, hp, hid, ho, hmg, ha⟩
    · rintro ⟨p, hp, hid, ho, hmg, ha⟩
      exact ⟨p, ⟨hp, ⟨⟨ho, hmg⟩, ha⟩⟩, hid⟩
  have hfirst : ∀ e, e ∈ approvalsLoad db profiles actor ws we ↔
      e ∈ db ∧ weekSubmitted ws we e = true ∧
        e.user_id ∈ directReportIds profiles actor.org_id actor.id := by
    intro e
    unfold approvalsLoad
    rw [hb]
    simp only [if_true]
    by_cases hE : (directReportIds profiles actor.org_id actor.id).isEmpty
    · have hnil : directReportIds profiles actor.org_id actor.id = [] :=
        List.isEmpty_iff.mp hE
    -- both sides are false: the load short-circuits and the id list is empty
      simp [hE, hnil]
    · simp only [hE, Bool.false_eq_true, if_false, List.mem_filter,
        Bool.and_eq_true]
      constructor
      · rintro ⟨h1, h2, h3⟩
        exact ⟨h1, h2, List.elem_iff.mp h3⟩
      · rintro ⟨h1, h2, h3⟩
        exact ⟨h1, h2, List.elem_iff.mpr h3⟩
  refine ⟨hfirst, ?_, ?_⟩
  · intro e he
    exact (hmem e.user_id).mp ((hfirst e).mp he).2.2
  · intro e he
    unfold payrollLoad at he
    by_cases hE : (contractorsFor profiles actor).isEmpty
    · simp [hb, hE] at he
    · have hnotc : (actor.role == Role.contractor) = false := by
        simp [hm]
      simp only [hb, hE, Bool.and_true, Bool.and_false, if_false,
        Bool.true_and, Bool.false_eq_true, hnotc, if_true] at he
      rw [List.mem_filter] at he
      obtain ⟨-, hany⟩ := he
      rw [List.any_eq_true] at hany
      obtain ⟨c, hc, hcid⟩ := hany
      unfold contractorsFor at hc
      rw [if_pos (by simp [hm]), if_pos hb] at hc
      rw [List.mem_filter, List.mem_filter] at hc
      obtain ⟨⟨hcp, hbase⟩, hmgr⟩ := hc
      simp only [Bool.and_eq_true, beq_iff_eq] at hbase hmgr hcid
      exact ⟨c, hcp, hcid, hbase.1.1, hmgr, hbase.2, hbase.1.2⟩

/-- Witness for `approvalsLoad_manager_team_only` at a concrete input. -/
theorem approvalsLoad_manager_team_only_witness :
    ∃ p, p ∈ [mgrM1, conC1] ∧ p.id = entryC1.user_id ∧
      p.org_id = mgrM1.org_id ∧ p.manager_id = some mgrM1.id ∧
      p.is_active = true := by
  exact (approvalsLoad_manager_team_only [entryC1, entryM1] [mgrM1, conC1]
    mgrM1 "2025-01-05" "2025-01-11" "2025-01-01" "2025-01-31"
    .approved none (by decide)).2.1 entryC1 (by decide)

/-- C4 counterexample: in the legacy payroll `load`
(src/src/app/reports/payroll/page.tsx) the query issued for a contractor
carries no `user_id` constraint: with contractor `c1` as actor, an
in-range approved entry of user `c2` is in the result of the issued
query. -/
theorem payrollLegacy_contractor_unscoped_cex :
    conC1.role = .contractor ∧
    entryOther.user_id ≠ conC1.id ∧
    entryOther ∈ payrollLoadLegacy [entryOther] conC1
      "2025-01-01" "2025-01-31" .approved none none := by
  decide

/-- C4 (amended): in the current payroll `load` (the variant with the
explicit scoping block), a contractor's query is always constrained to
`user_id = actor.id`, so it never returns an entry of another user; the
legacy variant issues no user constraint for contractors and relies on
the storage layer's row-level security instead. -/
theorem payrollLoad_contractor_self_only (db : List TimeEntry)
    (profiles : List Profile) (actor : Profile) (sd ed : String)
    (st : EntryStatus) (pf cf : Option String)
    (hc : actor.role = .contractor) :
    ∀ e ∈ payrollLoad db profiles actor sd ed st pf cf,
      e.user_id = actor.id := by
  intro e he
  unfold payrollLoad at he
  have h1 : (actor.role == Role.manager) = false := by simp [hc]
  have h2 : (actor.role == Role.contractor) = true := by simp [hc]
  simp only [h1, Bool.false_and, Bool.false_eq_true, if_false, h2,
    if_true] at he
  rw [List.mem_filter] at he
  simpa using he.2

/-- Witness for `payrollLoad_contractor_self_only`. -/
theorem payrollLoad_contractor_self_only_witness :
    entryC1.user_id = conC1.id :=
  payrollLoad_contractor_self_only [entryC1, entryOther]
    [mgrM1, conC1] conC1 "2025-01-01" "2025-01-31" .submitted none none
    (by decide) entryC1 (by decide)

/-- C6: an actor who is not an admin and for whom the target user is not
a direct report gets an authorization error from the guarded
approve/reject batch operations, and the table is unchanged (zero side
effects). The storage-layer guard is modelled from the spec (see
`canApproveTarget`). -/
theorem approveWeek_requires_authorization (profiles : List Profile)
    (actor : Profile) (db : List TimeEntry) (target ws we : String)
    (hA : actor.role ≠ .admin)
    (hD : (profiles.any fun p =>
        p.id == target && p.manager_id == some actor.id) = false) :
    approveWeekAuth profiles actor db target ws we
      = (some "authorization", db) ∧
    rejectWeekAuth profiles actor db target ws we
      = (some "authorization", db) := by
  have h1 : (actor.role == Role.admin) = false := by
    simpa using hA
  have hc : canApproveTarget profiles actor target = false := by
    unfold canApproveTarget
    simp [h1, hD]
  unfold approveWeekAuth rejectWeekAuth
  simp [hc]

/-- Witness for `approveWeek_requires_authorization`: manager `m1`
attempts to approve `c2`, who is not a direct report. -/
theorem approveWeek_requires_authorization_witness :
    approveWeekAuth [mgrM1, conC1] mgrM1 [entryOther] "c2"
      "2025-01-05" "2025-01-11" = (some "authorization", [entryOther]) ∧
    rejectWeekAuth [mgrM1, conC1] mgrM1 [entryOther] "c2"
      "2025-01-05" "2025-01-11" = (some "authorization", [entryOther]) := by
  exact approveWeek_requires_authorization [mgrM1, conC1] mgrM1
    [entryOther] "c2" "2025-01-05" "2025-01-11" (by decide) (by decide)

/-- C7 counterexample: `approveGroup`'s UPDATE sets only
`{ status: "approved" }`; the transitioned entry still has no approver
reference and no approval timestamp. -/
theorem approveWeek_no_approver_fields_cex :
    approveWeek [entryC1] "c1" "2025-01-05" "2025-01-11"
      = [{ entryC1 with status := .approved }] ∧
    ¬ (∀ e ∈ approveWeek [entryC1] "c1" "2025-01-05" "2025-01-11",
        e.status = .approved → e.approved_by.isSome ∧
          e.approved_at.isSome) := by
  decide

/-- C7 (amended): the submitted → approved batch transition changes only
the status of matched entries; `approved_by` and `approved_at` are left
exactly as they were (so they are not set by the transition). -/
theorem approveWeek_sets_status_only (u ws we : String) (e : TimeEntry) :
    (approveOne u ws we e).approved_by = e.approved_by ∧
    (approveOne u ws we e).approved_at = e.approved_at ∧
    (approveMatch u ws we e = true →
      approveOne u ws we e = { e with status := .approved }) ∧
    (approveMatch u ws we e = false → approveOne u ws we e = e) := by
  unfold approveOne
  by_cases h : approveMatch u ws we e = true
  · simp [h]
  · simp only [Bool.not_eq_true] at h
    simp [h]

/-- Witness for `approveWeek_sets_status_only`. -/
theorem approveWeek_sets_status_only_witness :
    approveOne "c1" "2025-01-05" "2025-01-11" entryC1
      = { entryC1 with status := .approved } :=
  (approveWeek_sets_status_only "c1" "2025-01-05" "2025-01-11"
    entryC1).2.2.1 (by decide)

/-- C1: a Profile update (`ProfilesPage.saveRow`, which patches
full_name, role, manager_id, hourly_rate, is_active on the `profiles`
table) leaves the `time_entries` table — hence every entry's
`hourly_rate_snapshot` and every pay `hours * snapshot` — untouched; and
a timesheet save's UPDATE, whose payload has no `hourly_rate_snapshot`
field, preserves each entry's `(id, hourly_rate_snapshot)` pair. -/
theorem rate_snapshot_frame (s : OrgState) (i : String)
    (patch : ProfilePatch) (db : List TimeEntry) (j : String)
    (p : DraftPayload) (hw : ℚ) :
    (saveRow s i patch).entries = s.entries ∧
    (saveRow s i patch).entries.map (entryPay hw)
      = s.entries.map (entryPay hw) ∧
    (applyDraftUpdate db j p).map (fun e => (e.id, e.hourly_rate_snapshot))
      = db.map (fun e => (e.id, e.hourly_rate_snapshot)) := by
  refine ⟨rfl, rfl, ?_⟩
  unfold applyDraftUpdate
  rw [List.map_map]
  apply List.map_congr_left
  intro e _
  by_cases h : (e.id == j) = true
  · simp [Function.comp, h, applyPayload]
  · simp [Function.comp, h]

/-- C8 counterexample: an owner's save over a `submitted` row is
silently skipped with an ok result: no UPDATE is issued for it and
`saveDraft` reports "Saved ✅" — there is no "locked" failure. -/
theorem saveDraft_locked_silent_cex :
    saveRowAction "org1" "c1" rowLocked = .skippedLocked ∧
    saveResultError (saveRowAction "org1" "c1" rowLocked) = none ∧
    draftUpdates "2025-01-05" "2025-01-11" "org1" "c1" [rowLocked] = [] ∧
    saveDraftMsg "2025-01-05" "2025-01-11" "org1" "c1" [rowLocked]
      = "Saved ✅" := by
  decide

/-- C8 (amended): an owner's attempt to save a `submitted`/`approved`
row (loaded rows always carry their project) is skipped: no write is
issued, so the stored entry is unchanged, and the per-row result is an
ok/no-error one — the overall save reports success rather than a
"locked" conflict. -/
theorem saveDraft_locked_skip (orgId uid : String) (r : DraftRow)
    (hs : r.status = some .submitted ∨ r.status = some .approved)
    (hp : r.project_id ≠ "") :
    saveRowAction orgId uid r = .skippedLocked ∧
    actionWrites (saveRowAction orgId uid r) = false ∧
    saveResultError (saveRowAction orgId uid r) = none := by
  have hp2 : (r.project_id == "") = false := by simpa using hp
  have hl : (r.status == some EntryStatus.submitted ||
      r.status == some EntryStatus.approved) = true := by
    rcases hs with h | h <;> simp [h]
  have ha : saveRowAction orgId uid r = .skippedLocked := by
    unfold saveRowAction
    simp [hp2, hl]
    intro h1 _ _ _ _
    exact absurd h1 hp
  exact ⟨ha, by rw [ha]; rfl, by rw [ha]; rfl⟩

/-- Witness for `saveDraft_locked_skip`. -/
theorem saveDraft_locked_skip_witness :
    saveRowAction "org1" "c1" rowLocked = .skippedLocked ∧
    actionWrites (saveRowAction "org1" "c1" rowLocked) = false ∧
    saveResultError (saveRowAction "org1" "c1" rowLocked) = none :=
  saveDraft_locked_skip "org1" "c1" rowLocked (by decide) (by decide)

/-- C9: `submitWeek`'s UPDATE transitions exactly the owner's in-week
entries in `draft`/`rejected` to `submitted` (already
`submitted`/`approved` entries and other users' entries are unchanged);
and `saveDraft` never persists a payload with an empty project
reference, so every entry the app writes — hence every entry the batch
can transition — has a non-empty project.  A transitioned entry keeps
its project. -/
theorem submitWeek_spec (uid ws we : String) (e : TimeEntry) :
    (submitMatch uid ws we e = true →
      submitOne uid ws we e = { e with status := .submitted }) ∧
    (submitMatch uid ws we e = false → submitOne uid ws we e = e) ∧
    (e.status = .submitted ∨ e.status = .approved →
      submitOne uid ws we e = e) ∧
    (e.user_id ≠ uid → submitOne uid ws we e = e) ∧
    (submitOne uid ws we e).project_id = e.project_id ∧
    (∀ orgId uid2 r p,
      actionPayload (saveRowAction orgId uid2 r) = some p →
        p.project_id ≠ "") := by
  refine ⟨?_, ?_, ?_, ?_, ?_, ?_⟩
  · intro h
    simp [submitOne, h]
  · intro h
    simp [submitOne, h]
  · intro h
    have hm : submitMatch uid ws we e = false := by
      rcases h with h | h <;> simp [submitMatch, h]
    simp [submitOne, hm]
  · intro h
    have hm : submitMatch uid ws we e = false := by
      simp [submitMatch, h]
    simp [submitOne, hm]
  · unfold submitOne
    by_cases h : submitMatch uid ws we e = true <;> simp [h]
  · intro orgId uid2 r p hpay
    unfold saveRowAction at hpay
    by_cases h1 : (r.project_id != "" || r.time_in != "" ||
        r.time_out != "" || r.lunch_hours > 0 || r.mileage > 0 ||
        r.notes != "") = true
    · rw [if_neg (by simp [h1])] at hpay
      by_cases h2 : (r.project_id == "") = true
      · rw [if_pos h2] at hpay
        exact absurd hpay (by simp [actionPayload])
      · rw [if_neg h2] at hpay
        by_cases h3 : (r.status == some EntryStatus.submitted ||
            r.status == some EntryStatus.approved) = true
        · rw [if_pos h3] at hpay
          exact absurd hpay (by simp [actionPayload])
        · rw [if_neg h3] at hpay
          have hproj : p.project_id = r.project_id := by
            rcases hr : r.id with - | i <;> rw [hr] at hpay <;>
              simp [actionPayload] at hpay <;> rw [← hpay]
          rw [hproj]
          simpa using h2
    · rw [if_pos (by simp [h1])] at hpay
      exact absurd hpay (by simp [actionPayload])

/-- Witness for `submitWeek_spec`. -/
theorem submitWeek_spec_witness :
    submitOne "c1" "2025-01-05" "2025-01-11" entryDraft
      = { entryDraft with status := .submitted } :=
  (submitWeek_spec "c1" "2025-01-05" "2025-01-11" entryDraft).1
    (by decide)

/-- C10: a POST to /api/admin/invite with a role other than
`manager`/`contractor` (in particular `admin`) gets a 400 validation
error with zero write effects — before any invite or profile write; on
the success path a `manager` invite's profile payload has
`manager_id = null` even when one was supplied, while a `contractor`
invite keeps the supplied manager_id; in both cases the validated
`hourly_rate` is stored on the payload. -/
theorem invite_route_spec :
    (∀ (b : InviteBody) (caller : Option Profile) (uid : Option String)
        (ops : List String),
      b.email ≠ "" → b.role ≠ "manager" → b.role ≠ "contractor" →
      invitePost true (some b) caller uid ops
        = ⟨400, false, some "Role must be manager or contractor", []⟩) ∧
    (∀ (b : InviteBody) (cp : Profile) (uid : String)
        (ops : List String) (r : ℚ),
      b.email ≠ "" → b.role = "manager" → b.hourly_rate = some r →
      ¬ r < 0 → cp.org_id ≠ "" → cp.role = .admin →
      b.project_ids.filter (· != "") = [] →
      invitePost true (some b) (some cp) (some uid) ops
        = ⟨200, true, none,
            [.inviteEmail b.email,
             .upsertProfile
               { id := uid, org_id := cp.org_id, role := b.role,
                 full_name := if b.full_name == "" then none
                   else some b.full_name,
                 hourly_rate := r, is_active := true,
                 manager_id := none }]⟩) ∧
    (∀ (b : InviteBody) (cp : Profile) (uid : String)
        (ops : List String) (r : ℚ),
      b.email ≠ "" → b.role = "contractor" → b.hourly_rate = some r →
      ¬ r < 0 → cp.org_id ≠ "" → cp.role = .admin →
      b.project_ids.filter (· != "") = [] →
      invitePost true (some b) (some cp) (some uid) ops
        = ⟨200, true, none,
            [.inviteEmail b.email,
             .upsertProfile
               { id := uid, org_id := cp.org_id, role := b.role,
                 full_name := if b.full_name == "" then none
                   else some b.full_name,
                 hourly_rate := r, is_active := true,
                 manager_id := presentOpt b.manager_id }]⟩) := by
  refine ⟨?_, ?_, ?_⟩
  · intro b caller uid ops he hm hc
    have he2 : (b.email == "") = false := by simpa using he
    have hm2 : (b.role == "manager") = false := by simpa using hm
    have hc2 : (b.role == "contractor") = false := by simpa using hc
    simp [invitePost, he2, hm2, hc2]
  · intro b cp uid ops r he hm hr hneg horg hadm hpids
    have he2 : (b.email == "") = false := by simpa using he
    have horg2 : (cp.org_id == "") = false := by simpa using horg
    have hadm2 : (cp.role == Role.admin) = true := by simp [hadm]
    simp [invitePost, he2, hm, hr, hneg, horg2, hadm2, hpids]
  · intro b cp uid ops r he hm hr hneg horg hadm hpids
    have he2 : (b.email == "") = false := by simpa using he
    have horg2 : (cp.org_id == "") = false := by simpa using horg
    have hadm2 : (cp.role == Role.admin) = true := by simp [hadm]
    simp [invitePost, he2, hm, hr, hneg, horg2, hadm2, hpids]

/-- Witness for `invite_route_spec`: an `admin`-role invite is rejected
with no effects, a `manager` invite discards the supplied manager_id,
and a `contractor` invite keeps it; both store the hourly rate. -/
theorem invite_route_spec_witness :
    invitePost true (some bodyAdminRole) (some adminA1) (some "u9") []
      = ⟨400, false, some "Role must be manager or contractor", []⟩ ∧
    invitePost true (some bodyManager) (some adminA1) (some "u7") []
      = ⟨200, true, none,
          [.inviteEmail "m2@y.com",
           .upsertProfile
             ⟨"u7", "org1", "manager", some "Max", 35, true, none⟩]⟩ ∧
    invitePost true (some bodyContractor) (some adminA1) (some "u8") []
      = ⟨200, true, none,
          [.inviteEmail "c3@y.com",
           .upsertProfile
             ⟨"u8", "org1", "contractor", some "Cleo", 42, true,
               some "m1"⟩]⟩ := by
  refine ⟨?_, ?_, ?_⟩
  · exact invite_route_spec.1 bodyAdminRole (some adminA1) (some "u9") []
      (by decide) (by decide) (by decide)
  · exact invite_route_spec.2.1 bodyManager adminA1 "u7" [] 35
      (by decide) (by decide) (by decide) (by norm_num) (by decide)
      (by decide) (by decide)
  · exact invite_route_spec.2.2 bodyContractor adminA1 "u8" [] 42
      (by decide) (by decide) (by decide) (by norm_num) (by decide)
      (by decide) (by decide)

end Timesheet
